import Mathlib

/-!
Verification of the tennis weather bot (`tennis_bot.py`).

This file gives a shallow embedding of the weather-window analyzer
(`analyze_day_weather`), the booking-message parser (`check_for_bookings`),
and the Friday reminder (`friday_reminder`), and proves/refutes the
specification claims about them.

Modelling conventions:
* Timestamps (`dt`, `sunset_time`) are epoch seconds as `Int`;
  Python's `datetime.fromtimestamp(x).hour` is modelled as
  `(x // 3600) % 24` with floor division (a fixed-offset clock).
* Python floats are modelled as rationals (`ℚ`); the `"{:.0f}"` float
  format is modelled as round-half-to-even on the rational value.
* Python dicts for forecast records become the structure `Sample`; the
  derived keys that the first pass of `analyze_day_weather` writes into
  each record (`hour`, `will_rain`, `rain_prob`, `wind_mph`, `temp`) are
  `Option`-valued fields, `none` meaning "key absent".  The in-place
  enrichment is modelled by `enrich` / `analyzeEffect`; the analysis
  passes read the derived quantities through the functions `hourOf`,
  `willRain`, `rainProb`, `windMph`, which agree with the values the
  enrichment writes (lemma `enrich_reads`).
-/

namespace TennisBot

/-! ### String utilities (Python `str.lower`, substring `in`, `{:02d}`) -/

/-- ASCII lower-casing of one character, as Python `str.lower` does for
the ASCII-only strings handled by the bot. -/
def lowerChar (c : Char) : Char :=
  if 'A' ≤ c ∧ c ≤ 'Z' then Char.ofNat (c.toNat + 32) else c

/-- Python `str.lower` on ASCII strings. -/
def lowerStr (s : String) : String :=
  String.mk (s.data.map lowerChar)

/-- Does `needle` occur at the head of `hay`? -/
def isPrefixList : List Char → List Char → Bool
  | [], _ => true
  | _ :: _, [] => false
  | a :: as, b :: bs => a = b && isPrefixList as bs

/-- Python's substring test `needle in hay` on character lists. -/
def containsList (needle hay : List Char) : Bool :=
  isPrefixList needle hay ||
    match hay with
    | [] => false
    | _ :: rest => containsList needle rest

/-- Python's substring test `needle in hay` on strings. -/
def containsSub (needle hay : String) : Bool :=
  containsList needle.data hay.data

/-- Python's `"{:02d}".format(n)` for integers. -/
def two0 (n : Int) : String :=
  if 0 ≤ n ∧ n < 10 then "0" ++ toString n else toString n

/-- Python's `"{:.0f}"` rounding: round half to even, here on the exact
rational value. -/
def fmt0f (q : ℚ) : Int :=
  let f := ⌊q⌋
  let r := q - (f : ℚ)
  if r > 1/2 then f + 1
  else if r < 1/2 then f
  else if f % 2 = 0 then f else f + 1

/-! ### Configuration constants (module-level constants in `tennis_bot.py`) -/

def MAX_WIND_SPEED_MPH : ℚ := 15

def PLAYING_HOURS_START : Int := 9

def PLAYING_HOURS_END : Int := 22

def HOURS_BEFORE_SUNSET : Int := 1

/-! ### Forecast samples and derived fields -/

/-- One forecast record of the OpenWeatherMap `list`.  `dt`, `mainTemp`
(`main.temp`), `windSpeed` (`wind.speed`, m/s), `pop` and `weatherMain`
(`weather[0].main`) are the fetched fields; the five `Option` fields model
the derived dict keys that `analyze_day_weather`'s first pass adds
in place (`none` = key absent, as in a freshly fetched record). -/
structure Sample where
  dt : Int
  mainTemp : ℚ
  windSpeed : ℚ
  pop : ℚ
  weatherMain : String
  hourF : Option Int := none
  willRainF : Option Bool := none
  rainProbF : Option ℚ := none
  windMphF : Option ℚ := none
  tempF : Option ℚ := none
deriving DecidableEq

/-- `datetime.fromtimestamp(s.dt).hour`. -/
def hourOf (s : Sample) : Int :=
  (Int.fdiv s.dt 3600).emod 24

/-- `wind_speed_mph = wind.speed * 2.237`. -/
def windMph (s : Sample) : ℚ :=
  s.windSpeed * (2237/1000)

/-- `rain_prob = pop * 100`. -/
def rainProb (s : Sample) : ℚ :=
  s.pop * 100

/-- `will_rain = rain_prob > 30 or 'rain' in weather[0].main.lower()`. -/
def willRain (s : Sample) : Bool :=
  decide (rainProb s > 30) || containsSub "rain" (lowerStr s.weatherMain)

/-- The first pass of `analyze_day_weather`: writes the five derived keys
into the record (in-place mutation in Python). -/
def enrich (s : Sample) : Sample :=
  { s with
    hourF := some (hourOf s)
    willRainF := some (willRain s)
    rainProbF := some (rainProb s)
    windMphF := some (windMph s)
    tempF := some s.mainTemp }

/-- The effect of `analyze_day_weather` on its input list: every record
gets the derived keys added.  (All of the analysis below reads the derived
quantities through `hourOf`/`willRain`/`rainProb`/`windMph`/`mainTemp`,
which agree with the enriched fields, see `enrich_reads`.) -/
def analyzeEffect (day_forecasts : List Sample) : List Sample :=
  day_forecasts.map enrich

/-- `cutoff_time = sunset_time - timedelta(hours=HOURS_BEFORE_SUNSET)`. -/
def cutoffOf (sunset_time : Int) : Int :=
  sunset_time - 3600 * HOURS_BEFORE_SUNSET

/-- The scope test of the second pass and of the window scan: the sample
is skipped iff `hour < PLAYING_HOURS_START or hour >= PLAYING_HOURS_END
or dt > cutoff_time`. -/
def inScope (cutoff : Int) (s : Sample) : Bool :=
  !(decide (hourOf s < PLAYING_HOURS_START) ||
    decide (hourOf s ≥ PLAYING_HOURS_END) ||
    decide (s.dt > cutoff))

/-! ### Second pass: temperature/wind statistics and rejection reasons -/

/-- The accumulator of the second pass: `temp_range[0]`, `temp_range[1]`,
`max_wind`, `reasons`. -/
structure Stats where
  tempLo : ℚ
  tempHi : ℚ
  maxWind : ℚ
  reasons : List String
deriving DecidableEq

/-- The reason string `f"wind speeds up to {wind_mph:.0f}mph"`. -/
def windReason (w : ℚ) : String :=
  "wind speeds up to " ++ toString (fmt0f w) ++ "mph"

/-- Loop body of the second pass for an in-scope sample: update the
min/max temperature and max wind, then (note the slip in the source: the
guard tests for the literal `"wind too high"`, not for the string that is
appended) record a wind reason when this sample's wind exceeds the
threshold. -/
def statsInner (st : Stats) (s : Sample) : Stats :=
  let st1 : Stats :=
    { st with
      tempLo := min st.tempLo s.mainTemp
      tempHi := max st.tempHi s.mainTemp
      maxWind := max st.maxWind (windMph s) }
  if windMph s > MAX_WIND_SPEED_MPH then
    if st1.reasons.contains "wind too high" then st1
    else { st1 with reasons := st1.reasons ++ [windReason (windMph s)] }
  else st1

/-- Loop body of the second pass (with the `continue` on out-of-scope
samples). -/
def statsStep (cutoff : Int) (st : Stats) (s : Sample) : Stats :=
  if inScope cutoff s then statsInner st s else st

/-- Initial accumulator: `temp_range = [999, -999]`, `max_wind = 0`,
`reasons = []`. -/
def statsInit : Stats :=
  { tempLo := 999, tempHi := -999, maxWind := 0, reasons := [] }

/-! ### Sorting (`sorted(day_forecasts, key=lambda x: x['dt'])`) -/

/-- The sort key order of `sorted(..., key=lambda x: x['dt'])`. -/
def dtLe (a b : Sample) : Prop :=
  a.dt ≤ b.dt

instance : DecidableRel dtLe := fun a b => inferInstanceAs (Decidable (a.dt ≤ b.dt))

instance : IsTotal Sample dtLe := ⟨fun a b => Int.le_total a.dt b.dt⟩

instance : IsTrans Sample dtLe := ⟨fun _ _ _ h1 h2 => le_trans h1 h2⟩

/-- Python's stable `sorted(day_forecasts, key=lambda x: x['dt'])`,
modelled by the (stable) insertion sort on the `dt` key. -/
def sortForecasts (l : List Sample) : List Sample :=
  List.insertionSort dtLe l

/-! ### Window scan -/

/-- The `current_window` dict: `start`, `end` (named `endH`: `end` is a
Lean keyword), `temp`, `wind`. -/
structure DryWindow where
  start : Int
  endH : Int
  temp : ℚ
  wind : ℚ
deriving DecidableEq

/-- `not will_rain and wind_mph <= MAX_WIND_SPEED_MPH`. -/
def goodSample (s : Sample) : Bool :=
  !(willRain s) && decide (windMph s ≤ MAX_WIND_SPEED_MPH)

/-- Loop body of the window scan for an in-scope sample: open a window at
`(hour, hour+3)` with this sample's temp/wind, or extend the open window's
`end` to `hour+3`, or (on a raining/windy sample) flush the open window. -/
def goodStep (st : List DryWindow × Option DryWindow) (s : Sample) :
    List DryWindow × Option DryWindow :=
  if goodSample s then
    match st.2 with
    | none => (st.1, some ⟨hourOf s, hourOf s + 3, s.mainTemp, windMph s⟩)
    | some w => (st.1, some { w with endH := hourOf s + 3 })
  else
    match st.2 with
    | some w => (st.1 ++ [w], none)
    | none => st

/-- Loop body of the window scan (with the `continue` on out-of-scope
samples). -/
def scanStep (cutoff : Int) (st : List DryWindow × Option DryWindow) (s : Sample) :
    List DryWindow × Option DryWindow :=
  if inScope cutoff s then goodStep st s else st

/-- `if current_window: dry_windows.append(current_window)` after the
scan. -/
def flushScan (st : List DryWindow × Option DryWindow) : List DryWindow :=
  st.1 ++ st.2.toList

/-- The `dry_windows` list computed by `analyze_day_weather`: scan the
chronologically sorted samples, skipping out-of-scope ones. -/
def dryWindows (cutoff : Int) (day_forecasts : List Sample) : List DryWindow :=
  flushScan ((sortForecasts day_forecasts).foldl (scanStep cutoff) ([], none))

/-! ### Window descriptions and the final result -/

/-- `any(f['will_rain'] and f.get('hour', 0) < 12 for f in day_forecasts)`
(over ALL samples of the day, not only in-scope ones). -/
def hasMorningRain (day_forecasts : List Sample) : Bool :=
  day_forecasts.any (fun f => willRain f && decide (hourOf f < 12))

/-- `any(f['will_rain'] and 12 <= f.get('hour', 0) < 18 ...)`. -/
def hasAfternoonRain (day_forecasts : List Sample) : Bool :=
  day_forecasts.any (fun f =>
    willRain f && (decide (12 ≤ hourOf f) && decide (hourOf f < 18)))

/-- `any(f['will_rain'] and f.get('hour', 0) >= 18 ...)` (computed by the
source but never used afterwards). -/
def hasEveningRain (day_forecasts : List Sample) : Bool :=
  day_forecasts.any (fun f => willRain f && decide (hourOf f ≥ 18))

/-- The description string of one window:
`f"{start:02d}:00-{end:02d}:00"` plus the `" (before rain)"` /
`" (after rain)"` suffixes. -/
def windowTime (morningRain afternoonRain : Bool) (w : DryWindow) : String :=
  let base := two0 w.start ++ ":00-" ++ two0 w.endH ++ ":00"
  if decide (w.start < 12) && afternoonRain then base ++ " (before rain)"
  else if decide (w.start ≥ 18) && (morningRain || afternoonRain) then
    base ++ " (after rain)"
  else base

/-- One entry of `results['windows']`. -/
structure ResultWindow where
  time : String
  temp : ℚ
  wind : ℚ
deriving DecidableEq

/-- The `results` dict of `analyze_day_weather` (`temp_range` as a pair). -/
structure DayAnalysis where
  playable : Bool
  windows : List ResultWindow
  reasons : List String
  tempRange : ℚ × ℚ
  maxWind : ℚ
deriving DecidableEq

/-- Shallow embedding of `analyze_day_weather(day_forecasts, day_name,
sunset_time)`. -/
def analyze_day_weather (day_forecasts : List Sample) (day_name : String)
    (sunset_time : Int) : DayAnalysis :=
  let _ := day_name
  let cutoff_time := cutoffOf sunset_time
  let st := day_forecasts.foldl (statsStep cutoff_time) statsInit
  let dws := dryWindows cutoff_time day_forecasts
  let mr := hasMorningRain day_forecasts
  let ar := hasAfternoonRain day_forecasts
  let ws := dws.map (fun w =>
    { time := windowTime mr ar w, temp := w.temp, wind := w.wind : ResultWindow })
  { playable := decide (0 < ws.length) && decide (st.maxWind ≤ MAX_WIND_SPEED_MPH)
    windows := ws
    reasons := st.reasons
    tempRange := (st.tempLo, st.tempHi)
    maxWind := st.maxWind }

/-! ### Booking state and the booking-message parser (`check_for_bookings`) -/

/-- The persisted booking: `{"day": ..., "time": ...}`. -/
structure Booking where
  day : String
  time : String
deriving DecidableEq

/-- Numeric value of a digit character. -/
def digitVal (c : Char) : Nat :=
  c.toNat - 48

/-- The two-digit minutes group `(\d{2})?` at the given position. -/
def twoDigitsAt : List Char → Option String
  | d1 :: d2 :: _ => if d1.isDigit && d2.isDigit then some (String.mk [d1, d2]) else none
  | _ => none

/-- After the hour digits: the optional `:?` then the optional `(\d{2})?`
minutes group; `time_match.group(2) or '00'`. -/
def minutesAfter (l : List Char) : String :=
  let l' := match l with
    | ':' :: rest => rest
    | _ => l
  match twoDigitsAt l' with
  | some m => m
  | none => "00"

/-- The leftmost match of `re.search(r'(\d{1,2}):?(\d{2})?(?:\s*(?:am|pm))?',
message)`: the match starts at the first digit, the hour group greedily
takes up to two digits, and the minutes are `group(2) or '00'`. -/
def findTime : List Char → Option (Nat × String)
  | [] => none
  | c :: rest =>
    if c.isDigit then
      match rest with
      | d :: rest2 =>
        if d.isDigit then some (digitVal c * 10 + digitVal d, minutesAfter rest2)
        else some (digitVal c, minutesAfter rest)
      | [] => some (digitVal c, minutesAfter ([] : List Char))
    else findTime rest

/-- Python's `"{:02d}".format(n)` for the parsed hour (a `Nat`). -/
def two0N (n : Nat) : String :=
  if n < 10 then "0" ++ toString n else toString n

/-- The meridiem adjustment of `check_for_bookings`:
`if 'pm' in message and hour < 12: hour += 12; elif 'am' in message and
hour == 12: hour = 0; elif hour < 9 and 'am' not in message and 'pm' not
in message: hour += 12`. -/
def adjustHour (hasPm hasAm : Bool) (hour : Nat) : Nat :=
  if hasPm && decide (hour < 12) then hour + 12
  else if hasAm && decide (hour = 12) then 0
  else if decide (hour < 9) && !hasAm && !hasPm then hour + 12
  else hour

/-- Processing of one incoming message by `check_for_bookings`, as the
new value of the stored booking: a message containing `"stop"` clears the
booking; a message containing `"booked"` with a parseable time stores the
parsed booking (`"saturday"`/`"sat"` → saturday, else sunday); anything
else leaves the state unchanged. -/
def checkMessage (booking : Option Booking) (text : String) : Option Booking :=
  let message := lowerStr text
  if containsSub "stop" message then none
  else if containsSub "booked" message then
    let day := if containsSub "saturday" message || containsSub "sat" message
      then "saturday" else "sunday"
    match findTime message.data with
    | some (h, m) =>
      let hasPm := containsSub "pm" message
      let hasAm := containsSub "am" message
      some ⟨day, two0N (adjustHour hasPm hasAm h) ++ ":" ++ m⟩
    | none => booking
  else booking

/-! ### The Friday reminder (`friday_reminder`) -/

/-- The persisted bot state (`state.json`): `{"booking": ...}`. -/
structure BotState where
  booking : Option Booking
deriving DecidableEq

/-- The messages `friday_reminder` can send, tagged with their payload:
the fetch-error message, the "couldn't get detailed forecast" reminder,
and the full reminder (with temperature, wind in mph, rain probability,
the rain warning flag and the high-wind flag that select the verdict
line). -/
inductive SentMsg where
  | errorFetch : SentMsg
  | fallbackReminder (day time : String) : SentMsg
  | reminder (day time : String) (temp wind rainProbV : ℚ)
      (warnRain warnWind : Bool) : SentMsg
deriving DecidableEq

/-- `datetime.fromtimestamp(dt).date()` as a day number (floor of the
epoch seconds by 86400, fixed-offset clock as for `hourOf`). -/
def dateOf (dt : Int) : Int :=
  Int.fdiv dt 86400

/-- Python's `datetime.weekday()` (Monday = 0) of an epoch timestamp;
day 0 (1970-01-01) was a Thursday (= 3). -/
def weekdayOf (now : Int) : Int :=
  (Int.fdiv now 86400 + 3).emod 7

/-- `int(time.split(':')[0])` for the stored booking time. -/
def timeHour (t : String) : Int :=
  Int.ofNat ((t.data.takeWhile (fun c => c ≠ ':')).foldl
    (fun n c => n * 10 + digitVal c) 0)

/-- Python's `min(l, key=key)` keeps the first element with the strictly
smallest key. -/
def minByKey (key : Sample → Int) : Sample → List Sample → Sample
  | best, [] => best
  | best, x :: xs =>
    if key x < key best then minByKey key x xs else minByKey key best xs

/-- Python `min` over a possibly empty list (the source only calls it on
a non-empty one). -/
def pyMin (key : Sample → Int) : List Sample → Option Sample
  | [] => none
  | x :: xs => some (minByKey key x xs)

/-- The key `abs(dt.hour - target_hour)` used to pick the closest
forecast. -/
def hourDist (b : Booking) (f : Sample) : Int :=
  ((hourOf f - timeHour b.time).natAbs : Int)

/-- The date of the booked day: `today + timedelta(days=(5 -
today.weekday()) % 7)` for Saturday, with 6 for Sunday. -/
def targetDate (bookingDay : String) (now : Int) : Int :=
  let idx : Int := if lowerStr bookingDay = "saturday" then 5 else 6
  dateOf (now + 86400 * ((idx - weekdayOf now).emod 7))

/-- `relevant_forecasts`: samples of the booked day within 2 hours of the
booked hour. -/
def relevantForecasts (b : Booking) (now : Int) (lst : List Sample) : List Sample :=
  lst.filter (fun f =>
    decide (dateOf f.dt = targetDate b.day now) &&
    decide ((hourOf f - timeHour b.time).natAbs ≤ 2))

/-- Shallow embedding of `friday_reminder`: the collaborators are passed
in (`weather = none` models a forecast response without a `list` key,
`now` is `datetime.now()`), and the result is the final persisted state
together with the messages sent. -/
def friday_reminder (state : BotState) (weather : Option (List Sample))
    (now : Int) : BotState × List SentMsg :=
  match state.booking with
  | none => (state, [])
  | some b =>
    match weather with
    | none => (state, [SentMsg.errorFetch])
    | some lst =>
      let relevant := relevantForecasts b now lst
      match pyMin (hourDist b) relevant with
      | none => (state, [SentMsg.fallbackReminder b.day b.time])
      | some closest =>
        ({ state with booking := none },
         [SentMsg.reminder b.day b.time closest.mainTemp (windMph closest)
            (rainProb closest) (willRain closest)
            (decide (windMph closest > MAX_WIND_SPEED_MPH))])

/-! ### Ghost-instrumented window scan (for reasoning about window contents)

`scanStepG` is `goodStep`/`scanStep` with each window carrying the list of
samples that were merged into it, in scan order.  `dryWindows_eq_ghost`
below shows that forgetting the ghost component gives back `dryWindows`. -/

/-- A dry window together with the samples merged into it (ghost data). -/
abbrev GWindow : Type := DryWindow × List Sample

/-- `goodStep` with ghost sample lists. -/
def goodStepG (st : List GWindow × Option GWindow) (s : Sample) :
    List GWindow × Option GWindow :=
  if goodSample s then
    match st.2 with
    | none => (st.1, some (⟨hourOf s, hourOf s + 3, s.mainTemp, windMph s⟩, [s]))
    | some (w, ss) => (st.1, some ({ w with endH := hourOf s + 3 }, ss ++ [s]))
  else
    match st.2 with
    | some g => (st.1 ++ [g], none)
    | none => st

/-- `flushScan` with ghost sample lists. -/
def flushScanG (st : List GWindow × Option GWindow) : List GWindow :=
  st.1 ++ st.2.toList

/-- The dry windows together with the samples that built them. -/
def dryWindowsG (cutoff : Int) (day_forecasts : List Sample) : List GWindow :=
  flushScanG (((sortForecasts day_forecasts).filter (inScope cutoff)).foldl
    goodStepG ([], none))

/-- The property of a ghost window asserted by claim C10: the window's
start hour, representative temperature and wind are those of the first
sample merged into it, and its end hour is the last merged sample's hour
plus 3. -/
def gwOk (g : GWindow) : Prop :=
  ∃ s₀ rest slast, g.2 = s₀ :: rest ∧
    g.1.start = hourOf s₀ ∧
    g.1.temp = s₀.mainTemp ∧
    g.1.wind = windMph s₀ ∧
    g.2.getLast? = some slast ∧
    g.1.endH = hourOf slast + 3

/-! ### Claim-level predicates -/

/-- Window `a` ends no later than window `b` starts (the non-overlap /
chronological-order relation of claim C3). -/
def wlt (a b : DryWindow) : Prop :=
  a.endH ≤ b.start

instance : DecidableRel wlt := fun a b =>
  inferInstanceAs (Decidable (a.endH ≤ b.start))

/-- Consecutive samples are at least one 3-hour forecast bucket apart. -/
def gap3 (a b : Sample) : Prop :=
  hourOf a + 3 ≤ hourOf b

instance : DecidableRel gap3 := fun a b =>
  inferInstanceAs (Decidable (hourOf a + 3 ≤ hourOf b))

/-- The in-scope samples in chronological (scan) order. -/
def inScopeSorted (cutoff : Int) (l : List Sample) : List Sample :=
  (sortForecasts l).filter (inScope cutoff)

/-! ### Concrete inputs used by witnesses and counterexamples -/

/-- A plain forecast record (no derived keys yet). -/
def mkSample (dt : Int) (windSpeed pop : ℚ) (weatherMain : String) : Sample :=
  { dt := dt, mainTemp := 10, windSpeed := windSpeed, pop := pop
    weatherMain := weatherMain }

/-- The scenario of spec section 8: samples at `09:00` (wind 10 mph),
`12:00` (wind 20 mph), `15:00` (wind 8 mph), no rain; `windSpeed` is in
m/s, so `x` mph is `x·1000/2237` m/s. -/
def exScenario : List Sample :=
  [mkSample (9*3600) (10*1000/2237) 0 "Clear",
   mkSample (12*3600) (20*1000/2237) 0 "Clear",
   mkSample (15*3600) (8*1000/2237) 0 "Clear"]

/-- One calm in-scope sample at 10:00. -/
def exCalm : List Sample := [mkSample (10*3600) 2 0 "Clear"]

/-- Hourly samples: 09:00 dry, 10:00 raining, 11:00 dry. -/
def exHourly : List Sample :=
  [mkSample (9*3600) 0 0 "Clear",
   mkSample (10*3600) 0 1 "Rain",
   mkSample (11*3600) 0 0 "Clear"]

/-- A calm in-scope 10:00 sample alone... -/
def exScopeBase : List Sample := [mkSample (10*3600) 0 0 "Clear"]

/-- ... and with an added out-of-scope (after the 11:00 cutoff) raining
sample at 13:00. -/
def exScopeMore : List Sample :=
  [mkSample (10*3600) 0 0 "Clear", mkSample (13*3600) 0 1 "Rain"]

/-- Two in-scope samples with wind 10 m/s = 22.37 mph, over the 15 mph
threshold. -/
def exWindy : List Sample :=
  [mkSample (10*3600) 10 0 "Clear", mkSample (13*3600) 10 0 "Clear"]

/-- A stored booking. -/
def exBooking : Booking := ⟨"saturday", "15:00"⟩

/-- A calm forecast sample on Saturday 1970-01-03 at 15:00 (epoch day 2),
matching `exBooking` as seen from `now = 0` (Thursday 1970-01-01). -/
def exSaturday : Sample := mkSample (2*86400 + 15*3600) 2 0 "Clear"

/-! ## Lemmas -/

/-- A fold whose body skips elements failing `p` (the `continue` pattern)
is a fold over the filtered list. -/
theorem foldl_filter_if {α β : Type} (f : β → α → β) (p : α → Bool) :
    ∀ (l : List α) (init : β),
      l.foldl (fun st s => if p s then f st s else st) init
        = (l.filter p).foldl f init
  | [], _ => rfl
  | a :: l, init => by
    by_cases h : p a = true <;>
      simp [h, List.filter_cons, foldl_filter_if f p l]

/-- The second pass is a fold of `statsInner` over the in-scope samples. -/
theorem statsFold_eq (c : Int) (l : List Sample) (init : Stats) :
    l.foldl (statsStep c) init = (l.filter (inScope c)).foldl statsInner init := by
  have h : statsStep c = fun st s => if inScope c s then statsInner st s else st := rfl
  rw [h, foldl_filter_if]

/-- The window scan is a fold of `goodStep` over the in-scope samples of
the sorted list. -/
theorem scanFold_eq (c : Int) (l : List Sample)
    (init : List DryWindow × Option DryWindow) :
    l.foldl (scanStep c) init = (l.filter (inScope c)).foldl goodStep init := by
  have h : scanStep c = fun st s => if inScope c s then goodStep st s else st := rfl
  rw [h, foldl_filter_if]

/-- One step of the second pass takes the running maximum of the wind. -/
theorem statsInner_maxWind (st : Stats) (s : Sample) :
    (statsInner st s).maxWind = max st.maxWind (windMph s) := by
  simp only [statsInner]
  split_ifs <;> rfl

/-- The `max_wind` accumulator is at most `B` iff it started at most `B`
and every in-scope sample's wind is at most `B`. -/
theorem stats_maxWind_le (c : Int) (B : ℚ) :
    ∀ (l : List Sample) (st : Stats),
      ((l.foldl (statsStep c) st).maxWind ≤ B ↔
        st.maxWind ≤ B ∧ ∀ s ∈ l, inScope c s = true → windMph s ≤ B)
  | [], st => by simp
  | a :: l, st => by
    rw [List.foldl_cons, stats_maxWind_le c B l]
    unfold statsStep
    by_cases h : inScope c a = true
    · simp only [h, if_true, statsInner_maxWind, max_le_iff, List.forall_mem_cons]
      tauto
    · simp only [h, if_false, List.forall_mem_cons]
      tauto

/-- Inserting an element below every element of a list puts it in front. -/
theorem orderedInsert_of_forall_le {x : Sample} :
    ∀ {K : List Sample}, (∀ z ∈ K, x.dt ≤ z.dt) →
      List.orderedInsert dtLe x K = x :: K
  | [], _ => rfl
  | z :: K, h => by
    have hz : dtLe x z := h z (List.mem_cons_self z K)
    simp [List.orderedInsert, if_pos hz]

/-- `filter` commutes with `orderedInsert` into a sorted list. -/
theorem filter_orderedInsert (p : Sample → Bool) (x : Sample) :
    ∀ (M : List Sample), List.Sorted dtLe M →
      (List.orderedInsert dtLe x M).filter p =
        if p x then List.orderedInsert dtLe x (M.filter p) else M.filter p
  | [], _ => by
    cases hp : p x <;> simp [List.orderedInsert, hp]
  | b :: M, hs => by
    have hsM : List.Sorted dtLe M := hs.of_cons
    by_cases hxb : dtLe x b
    · rw [List.orderedInsert_of_le dtLe M hxb]
      cases hp : p x with
      | false => simp [List.filter_cons, hp]
      | true =>
        have hall : ∀ z ∈ (b :: M).filter p, x.dt ≤ z.dt := by
          intro z hz
          have hzmem : z ∈ b :: M := List.mem_of_mem_filter hz
          rcases List.mem_cons.mp hzmem with rfl | hzM
          · exact hxb
          · exact le_trans hxb (List.rel_of_sorted_cons hs z hzM)
        rw [orderedInsert_of_forall_le hall]
        simp [List.filter_cons, hp]
    · have hins : List.orderedInsert dtLe x (b :: M)
          = b :: List.orderedInsert dtLe x M := by
        simp [List.orderedInsert, if_neg hxb]
      rw [hins]
      have ih := filter_orderedInsert p x M hsM
      cases hp : p x with
      | false =>
        cases hpb : p b <;>
          simp_all [List.filter_cons]
      | true =>
        cases hpb : p b with
        | false => simp_all [List.filter_cons]
        | true =>
          have : List.orderedInsert dtLe x (b :: M.filter p)
              = b :: List.orderedInsert dtLe x (M.filter p) := by
            simp [List.orderedInsert, if_neg hxb]
          simp_all [List.filter_cons]

/-- `filter` commutes with the chronological sort. -/
theorem filter_sortForecasts (p : Sample → Bool) :
    ∀ (l : List Sample),
      (sortForecasts l).filter p = sortForecasts (l.filter p)
  | [] => rfl
  | a :: l => by
    have h1 : sortForecasts (a :: l)
        = List.orderedInsert dtLe a (sortForecasts l) := rfl
    have hs : List.Sorted dtLe (sortForecasts l) :=
      List.sorted_insertionSort dtLe l
    rw [h1, filter_orderedInsert p a _ hs, filter_sortForecasts p l]
    cases hp : p a with
    | false => simp [hp, List.filter_cons]
    | true =>
      simp only [hp, if_true, List.filter_cons]
      rfl

/-- A run of good (dry, calm) samples starting with an open window only
moves the window's end hour to `lastHour + 3`. -/
theorem goodRun_some :
    ∀ (L : List Sample) (hne : L ≠ []) (acc : List DryWindow) (w : DryWindow),
      (∀ s ∈ L, goodSample s = true) →
      L.foldl goodStep (acc, some w)
        = (acc, some { w with endH := hourOf (L.getLast hne) + 3 })
  | [], hne, _, _, _ => absurd rfl hne
  | [s], _, acc, w, hg => by
    have hgs : goodSample s = true := hg s (List.mem_cons_self s [])
    simp [goodStep, hgs]
  | s :: s' :: L, _, acc, w, hg => by
    have hgs : goodSample s = true := hg s (by simp)
    have hrest : ∀ x ∈ s' :: L, goodSample x = true := fun x hx =>
      hg x (by simp [hx])
    rw [List.foldl_cons]
    have hstep : goodStep (acc, some w) s
        = (acc, some { w with endH := hourOf s + 3 }) := by
      simp [goodStep, hgs]
    rw [hstep, goodRun_some (s' :: L) (by simp) acc _ hrest]
    simp [List.getLast_cons]

/-- A run of good samples starting with no open window opens one spanning
from the first sample's hour to the last sample's hour plus 3, carrying
the first sample's temperature and wind. -/
theorem goodRun_none :
    ∀ (L : List Sample) (hne : L ≠ []) (acc : List DryWindow),
      (∀ s ∈ L, goodSample s = true) →
      L.foldl goodStep (acc, none)
        = (acc, some ⟨hourOf (L.head hne), hourOf (L.getLast hne) + 3,
            (L.head hne).mainTemp, windMph (L.head hne)⟩)
  | [], hne, _, _ => absurd rfl hne
  | s :: L, _, acc, hg => by
    have hgs : goodSample s = true := hg s (by simp)
    rw [List.foldl_cons]
    have hstep : goodStep (acc, none) s
        = (acc, some ⟨hourOf s, hourOf s + 3, s.mainTemp, windMph s⟩) := by
      simp [goodStep, hgs]
    rw [hstep]
    cases L with
    | nil => rfl
    | cons s' L' =>
      rw [goodRun_some (s' :: L') (by simp) acc _
        (fun x hx => hg x (by simp [hx]))]
      simp [List.getLast_cons]

/-! ## Claims -/

/-- C1: for every input sample list and sunset time, the analysis is
playable iff at least one window was produced and the maximum wind (mph,
equivalently: every wind) over ALL in-scope samples does not exceed the
threshold; in particular an in-scope wind spike above the threshold makes
the day not playable even when dry windows exist. -/
theorem C1_playable_iff (l : List Sample) (d : String) (t : Int) :
    ((analyze_day_weather l d t).playable = true ↔
      ((analyze_day_weather l d t).windows ≠ [] ∧
        ∀ s ∈ l, inScope (cutoffOf t) s = true →
          windMph s ≤ MAX_WIND_SPEED_MPH)) ∧
    ((∃ s ∈ l, inScope (cutoffOf t) s = true ∧
        MAX_WIND_SPEED_MPH < windMph s) →
      (analyze_day_weather l d t).playable = false) := by
  have hpl : (analyze_day_weather l d t).playable
      = (decide (0 < (analyze_day_weather l d t).windows.length) &&
          decide ((l.foldl (statsStep (cutoffOf t)) statsInit).maxWind
            ≤ MAX_WIND_SPEED_MPH)) := rfl
  have hmax := stats_maxWind_le (cutoffOf t) MAX_WIND_SPEED_MPH l statsInit
  have h0 : statsInit.maxWind ≤ MAX_WIND_SPEED_MPH := by
    norm_num [statsInit, MAX_WIND_SPEED_MPH]
  constructor
  · rw [hpl]
    simp only [Bool.and_eq_true, decide_eq_true_eq, hmax, h0, true_and,
      List.length_pos]
  · rintro ⟨s, hs, hsc, hw⟩
    rw [hpl]
    have hnot : ¬ ((l.foldl (statsStep (cutoffOf t)) statsInit).maxWind
        ≤ MAX_WIND_SPEED_MPH) := by
      rw [hmax]
      rintro ⟨-, hall⟩
      exact absurd (hall s hs hsc) (not_le.mpr hw)
    simp [hnot]

/-- Witness for C1: the spec's section-8 scenario: windows exist but the
12:00 wind of 20 mph is an in-scope spike, so the day is not playable. -/
theorem C1_witness :
    (∃ s ∈ exScenario, inScope (cutoffOf (20*3600)) s = true ∧
      MAX_WIND_SPEED_MPH < windMph s) ∧
    (analyze_day_weather exScenario "Saturday" (20*3600)).playable = false := by
  have hex : ∃ s ∈ exScenario, inScope (cutoffOf (20*3600)) s = true ∧
      MAX_WIND_SPEED_MPH < windMph s :=
    of_decide_eq_true (by with_unfolding_all rfl)
  exact ⟨hex, (C1_playable_iff exScenario "Saturday" (20*3600)).2 hex⟩

/-- C8: with zero in-scope samples the analysis keeps the `[999, -999]`
temperature sentinel, has no windows, and is not playable. -/
theorem C8_no_inscope (l : List Sample) (d : String) (t : Int)
    (h : l.filter (inScope (cutoffOf t)) = []) :
    (analyze_day_weather l d t).tempRange = (999, -999) ∧
    (analyze_day_weather l d t).windows = [] ∧
    (analyze_day_weather l d t).playable = false := by
  have hst : l.foldl (statsStep (cutoffOf t)) statsInit = statsInit := by
    rw [statsFold_eq, h]
    rfl
  have hsorted : (sortForecasts l).filter (inScope (cutoffOf t)) = [] := by
    rw [filter_sortForecasts, h]
    rfl
  have hdw : dryWindows (cutoffOf t) l = [] := by
    unfold dryWindows
    rw [scanFold_eq, hsorted]
    rfl
  have hwin : (analyze_day_weather l d t).windows = [] := by
    show (dryWindows (cutoffOf t) l).map _ = []
    rw [hdw]
    rfl
  refine ⟨?_, hwin, ?_⟩
  · show ((l.foldl (statsStep (cutoffOf t)) statsInit).tempLo,
      (l.foldl (statsStep (cutoffOf t)) statsInit).tempHi) = (999, -999)
    rw [hst]
    rfl
  · show (decide (0 < (analyze_day_weather l d t).windows.length) && _) = false
    rw [hwin]
    rfl

/-- Witness for C8: a single sample after the sunset cutoff is out of
scope, so the analysis is empty and not playable. -/
theorem C8_witness :
    exScopeBase.filter (inScope (cutoffOf (9*3600))) = [] ∧
    (analyze_day_weather exScopeBase "d" (9*3600)).tempRange = (999, -999) ∧
    (analyze_day_weather exScopeBase "d" (9*3600)).windows = [] ∧
    (analyze_day_weather exScopeBase "d" (9*3600)).playable = false := by
  have h : exScopeBase.filter (inScope (cutoffOf (9*3600))) = [] := by
    with_unfolding_all rfl
  exact ⟨h, C8_no_inscope exScopeBase "d" (9*3600) h⟩

/-- C5 evaluation at the failing input: two in-scope samples, each with
wind 10 m/s = 22.37 mph over the threshold, produce two duplicate wind
reason strings (the claim — and the source's own dedup guard, which
tests for the wrong literal `"wind too high"` — call for a single
deduplicated reason naming the peak wind). -/
theorem C5_code_eval :
    (analyze_day_weather exWindy "d" (23*3600)).reasons
      = ["wind speeds up to 22mph", "wind speeds up to 22mph"] := by
  with_unfolding_all rfl

/-- C9 counterexample: `analyze_day_weather`'s first pass mutates its
input: a freshly fetched record (no derived keys) does not come back
unchanged — the derived keys were added. -/
theorem C9_counterexample :
    analyzeEffect [mkSample 0 1 0 "Clear"] ≠ [mkSample 0 1 0 "Clear"] :=
  of_decide_eq_true (by with_unfolding_all rfl)

/-- C9 amended: the analysis adds the five derived fields to every input
record (so the records are not left unchanged), but it never removes or
modifies the fetched fields. -/
theorem C9_amended :
    ∀ (l : List Sample), List.Forall₂ (fun s s' =>
      s'.dt = s.dt ∧ s'.mainTemp = s.mainTemp ∧ s'.windSpeed = s.windSpeed ∧
      s'.pop = s.pop ∧ s'.weatherMain = s.weatherMain ∧
      s'.hourF = some (hourOf s) ∧ s'.willRainF = some (willRain s) ∧
      s'.rainProbF = some (rainProb s) ∧ s'.windMphF = some (windMph s) ∧
      s'.tempF = some s.mainTemp) l (analyzeEffect l)
  | [] => List.Forall₂.nil
  | _ :: l =>
    List.Forall₂.cons ⟨rfl, rfl, rfl, rfl, rfl, rfl, rfl, rfl, rfl, rfl⟩
      (C9_amended l)

/-- C6: the booking parse examples and the meridiem rules. -/
theorem C6_booking_parse (b : Option Booking) (hasPm hasAm : Bool) (h : Nat) :
    checkMessage b "Booked for sunday at 15:00" = some ⟨"sunday", "15:00"⟩ ∧
    checkMessage b "booked for sat at 3pm" = some ⟨"saturday", "15:00"⟩ ∧
    checkMessage b "booked for sunday at 3" = some ⟨"sunday", "15:00"⟩ ∧
    checkMessage b "stop" = none ∧
    (hasPm = true → h < 12 → adjustHour hasPm hasAm h = h + 12) ∧
    (hasAm = true → h = 12 → adjustHour hasPm hasAm h = 0) ∧
    (hasPm = false → hasAm = false → h < 9 →
      adjustHour hasPm hasAm h = h + 12) := by
  refine ⟨?_, ?_, ?_, ?_, ?_, ?_, ?_⟩
  · with_unfolding_all rfl
  · with_unfolding_all rfl
  · with_unfolding_all rfl
  · with_unfolding_all rfl
  · intro hpm hlt
    simp [adjustHour, hpm, hlt]
  · rintro ham rfl
    simp [adjustHour, ham]
  · intro hpm ham hlt
    simp [adjustHour, hpm, ham, hlt]

/-- Witness for C6: the meridiem rules at concrete inputs, and "stop"
clearing a stored booking. -/
theorem C6_witness :
    adjustHour true false 3 = 3 + 12 ∧
    adjustHour false true 12 = 0 ∧
    adjustHour false false 3 = 3 + 12 ∧
    checkMessage (some exBooking) "stop" = none :=
  ⟨(C6_booking_parse none true false 3).2.2.2.2.1 rfl (by decide),
   (C6_booking_parse none false true 12).2.2.2.2.2.1 rfl rfl,
   (C6_booking_parse none false false 3).2.2.2.2.2.2 rfl rfl (by decide),
   (C6_booking_parse (some exBooking) true false 3).2.2.2.1⟩

/-- C4 counterexample: two inputs that agree on their in-scope samples
(the extra 13:00 sample is after the 11:00 cutoff) but produce different
window description strings — the out-of-scope raining sample triggers the
"(before rain)" annotation, which is computed over ALL samples of the
day. -/
theorem C4_counterexample :
    exScopeBase.filter (inScope (cutoffOf (12*3600)))
      = exScopeMore.filter (inScope (cutoffOf (12*3600))) ∧
    (analyze_day_weather exScopeBase "d" (12*3600)).windows
      ≠ (analyze_day_weather exScopeMore "d" (12*3600)).windows := by
  refine ⟨by with_unfolding_all rfl, ?_⟩
  exact of_decide_eq_true (by with_unfolding_all rfl)

/-- C4 amended: two inputs that agree on their in-scope samples produce
the same dry windows (hence the same window hour ranges, temperatures and
winds), the same temperature range, max wind, reasons and playability;
only the rain annotations inside the window description strings can
differ, since they are computed over all samples of the day including
out-of-scope ones. -/
theorem C4_amended (l1 l2 : List Sample) (d1 d2 : String) (t : Int)
    (h : l1.filter (inScope (cutoffOf t)) = l2.filter (inScope (cutoffOf t))) :
    dryWindows (cutoffOf t) l1 = dryWindows (cutoffOf t) l2 ∧
    (analyze_day_weather l1 d1 t).tempRange
      = (analyze_day_weather l2 d2 t).tempRange ∧
    (analyze_day_weather l1 d1 t).maxWind
      = (analyze_day_weather l2 d2 t).maxWind ∧
    (analyze_day_weather l1 d1 t).reasons
      = (analyze_day_weather l2 d2 t).reasons ∧
    (analyze_day_weather l1 d1 t).playable
      = (analyze_day_weather l2 d2 t).playable ∧
    (analyze_day_weather l1 d1 t).windows.map (fun w => (w.temp, w.wind))
      = (analyze_day_weather l2 d2 t).windows.map (fun w => (w.temp, w.wind)) := by
  have hsort : (sortForecasts l1).filter (inScope (cutoffOf t))
      = (sortForecasts l2).filter (inScope (cutoffOf t)) := by
    rw [filter_sortForecasts, filter_sortForecasts, h]
  have hdw : dryWindows (cutoffOf t) l1 = dryWindows (cutoffOf t) l2 := by
    unfold dryWindows
    rw [scanFold_eq, scanFold_eq, hsort]
  have hstats : l1.foldl (statsStep (cutoffOf t)) statsInit
      = l2.foldl (statsStep (cutoffOf t)) statsInit := by
    rw [statsFold_eq, statsFold_eq, h]
  have hwmap : ∀ (mr ar : Bool) (l : List DryWindow),
      (l.map (fun w =>
        { time := windowTime mr ar w, temp := w.temp, wind := w.wind
          : ResultWindow })).map (fun w => (w.temp, w.wind))
        = l.map (fun w => (w.temp, w.wind)) := by
    intro mr ar l
    rw [List.map_map]
    rfl
  refine ⟨hdw, ?_, ?_, ?_, ?_, ?_⟩
  · show ((l1.foldl (statsStep (cutoffOf t)) statsInit).tempLo,
        (l1.foldl (statsStep (cutoffOf t)) statsInit).tempHi)
      = ((l2.foldl (statsStep (cutoffOf t)) statsInit).tempLo,
        (l2.foldl (statsStep (cutoffOf t)) statsInit).tempHi)
    rw [hstats]
  · show (l1.foldl (statsStep (cutoffOf t)) statsInit).maxWind
      = (l2.foldl (statsStep (cutoffOf t)) statsInit).maxWind
    rw [hstats]
  · show (l1.foldl (statsStep (cutoffOf t)) statsInit).reasons
      = (l2.foldl (statsStep (cutoffOf t)) statsInit).reasons
    rw [hstats]
  · have hln1 : (analyze_day_weather l1 d1 t).windows.length
        = (dryWindows (cutoffOf t) l1).length := by
      show ((dryWindows (cutoffOf t) l1).map _).length = _
      rw [List.length_map]
    have hln2 : (analyze_day_weather l2 d2 t).windows.length
        = (dryWindows (cutoffOf t) l2).length := by
      show ((dryWindows (cutoffOf t) l2).map _).length = _
      rw [List.length_map]
    show (decide (0 < (analyze_day_weather l1 d1 t).windows.length) &&
        decide ((l1.foldl (statsStep (cutoffOf t)) statsInit).maxWind
          ≤ MAX_WIND_SPEED_MPH))
      = (decide (0 < (analyze_day_weather l2 d2 t).windows.length) &&
        decide ((l2.foldl (statsStep (cutoffOf t)) statsInit).maxWind
          ≤ MAX_WIND_SPEED_MPH))
    rw [hln1, hln2, hdw, hstats]
  · show ((dryWindows (cutoffOf t) l1).map _).map _
      = ((dryWindows (cutoffOf t) l2).map _).map _
    rw [hwmap, hwmap, hdw]

/-- Witness for C4's amended claim at the counterexample inputs: the
hour-level windows and the aggregates agree even though the description
strings differ. -/
theorem C4_witness :
    exScopeBase.filter (inScope (cutoffOf (12*3600)))
      = exScopeMore.filter (inScope (cutoffOf (12*3600))) ∧
    dryWindows (cutoffOf (12*3600)) exScopeBase
      = dryWindows (cutoffOf (12*3600)) exScopeMore ∧
    (analyze_day_weather exScopeBase "a" (12*3600)).maxWind
      = (analyze_day_weather exScopeMore "b" (12*3600)).maxWind := by
  have h : exScopeBase.filter (inScope (cutoffOf (12*3600)))
      = exScopeMore.filter (inScope (cutoffOf (12*3600))) := by
    with_unfolding_all rfl
  obtain ⟨hdw, -, hmw, -⟩ :=
    C4_amended exScopeBase exScopeMore "a" "b" (12*3600) h
  exact ⟨h, hdw, hmw⟩

/-- C7 counterexample: with a booking present and forecast data available
(the response has a `list`, here empty, so no samples near the booked
time), `friday_reminder` sends a reminder message but does NOT clear the
stored booking. -/
theorem C7_counterexample :
    (friday_reminder ⟨some exBooking⟩ (some []) 0).2 ≠ [] ∧
    (friday_reminder ⟨some exBooking⟩ (some []) 0).1.booking
      = some exBooking := by
  refine ⟨?_, by with_unfolding_all rfl⟩
  exact of_decide_eq_true (by with_unfolding_all rfl)

/-- C7 amended: with no booking the run is a no-op (nothing sent, state
unchanged); with a booking and forecast data containing samples within
two hours of the booked time on the booked day, a reminder is sent and
the booking is cleared; with forecast data lacking such samples, a
fallback reminder is sent and the booking is retained. -/
theorem C7_reminder (state : BotState) (w : Option (List Sample)) (now : Int) :
    (state.booking = none → friday_reminder state w now = (state, [])) ∧
    (∀ b lst, state.booking = some b → w = some lst →
      ((relevantForecasts b now lst = [] →
         friday_reminder state w now
           = (state, [SentMsg.fallbackReminder b.day b.time])) ∧
       (relevantForecasts b now lst ≠ [] →
         (friday_reminder state w now).1.booking = none ∧
         ∃ temp wind rp wr ww,
           (friday_reminder state w now).2
             = [SentMsg.reminder b.day b.time temp wind rp wr ww]))) := by
  obtain ⟨bk⟩ := state
  constructor
  · intro h
    have hbk : bk = none := h
    subst hbk
    rfl
  · intro b lst hb hw
    have hbk : bk = some b := hb
    subst hbk
    subst hw
    constructor
    · intro hrel
      have hpy : pyMin (hourDist b) (relevantForecasts b now lst) = none := by
        rw [hrel]
        rfl
      simp only [friday_reminder]
      rw [hpy]
    · intro hrel
      cases hcr : relevantForecasts b now lst with
      | nil => exact absurd hcr hrel
      | cons x xs =>
        have hpy : pyMin (hourDist b) (relevantForecasts b now lst)
            = some (minByKey (hourDist b) x xs) := by
          rw [hcr]
          rfl
        constructor
        · show (BotState.booking
            (friday_reminder ⟨some b⟩ (some lst) now).1) = none
          simp only [friday_reminder]
          rw [hpy]
        · refine ⟨(minByKey (hourDist b) x xs).mainTemp,
            windMph (minByKey (hourDist b) x xs),
            rainProb (minByKey (hourDist b) x xs),
            willRain (minByKey (hourDist b) x xs),
            decide (windMph (minByKey (hourDist b) x xs)
              > MAX_WIND_SPEED_MPH), ?_⟩
          simp only [friday_reminder]
          rw [hpy]

/-- Witness for C7's amended claim: a Saturday 15:00 booking seen from
Thursday 1970-01-01, with a calm forecast sample at exactly the booked
slot: the reminder fires and the booking is cleared. -/
theorem C7_witness :
    (friday_reminder ⟨some exBooking⟩ (some [exSaturday]) 0).1.booking
      = none ∧
    ∃ temp wind rp wr ww,
      (friday_reminder ⟨some exBooking⟩ (some [exSaturday]) 0).2
        = [SentMsg.reminder "saturday" "15:00" temp wind rp wr ww] := by
  have hne : relevantForecasts exBooking 0 [exSaturday] ≠ [] :=
    of_decide_eq_true (by with_unfolding_all rfl)
  exact ((C7_reminder ⟨some exBooking⟩ (some [exSaturday]) 0).2
    exBooking [exSaturday] rfl rfl).2 hne

/-- C2: when the in-scope samples are non-empty and all dry and calm, the
analysis has exactly one window, that dry window spans from the hour of
the earliest in-scope sample to the hour of the latest in-scope sample
plus 3 (carrying the earliest sample's temperature and wind), and the day
is playable. -/
theorem C2_single_window (l : List Sample) (d : String) (t : Int)
    (hne : inScopeSorted (cutoffOf t) l ≠ [])
    (hgood : ∀ s ∈ inScopeSorted (cutoffOf t) l, goodSample s = true) :
    (analyze_day_weather l d t).windows.length = 1 ∧
    (analyze_day_weather l d t).playable = true ∧
    dryWindows (cutoffOf t) l
      = [⟨hourOf ((inScopeSorted (cutoffOf t) l).head hne),
          hourOf ((inScopeSorted (cutoffOf t) l).getLast hne) + 3,
          ((inScopeSorted (cutoffOf t) l).head hne).mainTemp,
          windMph ((inScopeSorted (cutoffOf t) l).head hne)⟩] := by
  have hdw : dryWindows (cutoffOf t) l
      = [⟨hourOf ((inScopeSorted (cutoffOf t) l).head hne),
          hourOf ((inScopeSorted (cutoffOf t) l).getLast hne) + 3,
          ((inScopeSorted (cutoffOf t) l).head hne).mainTemp,
          windMph ((inScopeSorted (cutoffOf t) l).head hne)⟩] := by
    unfold dryWindows
    rw [scanFold_eq]
    rw [show (sortForecasts l).filter (inScope (cutoffOf t))
        = inScopeSorted (cutoffOf t) l from rfl]
    rw [goodRun_none _ hne [] hgood]
    rfl
  have hlen : (analyze_day_weather l d t).windows.length = 1 := by
    show ((dryWindows (cutoffOf t) l).map _).length = 1
    rw [List.length_map, hdw]
    rfl
  refine ⟨hlen, ?_, hdw⟩
  have hmem : ∀ s ∈ l, inScope (cutoffOf t) s = true →
      windMph s ≤ MAX_WIND_SPEED_MPH := by
    intro s hs hsc
    have hmemS : s ∈ inScopeSorted (cutoffOf t) l := by
      unfold inScopeSorted sortForecasts
      rw [List.mem_filter, List.mem_insertionSort]
      exact ⟨hs, hsc⟩
    have hg := hgood s hmemS
    simp only [goodSample, Bool.and_eq_true, decide_eq_true_eq] at hg
    exact hg.2
  have hmax : (l.foldl (statsStep (cutoffOf t)) statsInit).maxWind
      ≤ MAX_WIND_SPEED_MPH :=
    (stats_maxWind_le (cutoffOf t) MAX_WIND_SPEED_MPH l statsInit).mpr
      ⟨by norm_num [statsInit, MAX_WIND_SPEED_MPH], hmem⟩
  show (decide (0 < (analyze_day_weather l d t).windows.length) &&
      decide ((l.foldl (statsStep (cutoffOf t)) statsInit).maxWind
        ≤ MAX_WIND_SPEED_MPH)) = true
  rw [hlen]
  simp [hmax]

/-- Witness for C2: a single calm in-scope 10:00 sample yields one window
from 10:00 to 13:00 and a playable day. -/
theorem C2_witness :
    (inScopeSorted (cutoffOf (23*3600)) exCalm ≠ []) ∧
    (analyze_day_weather exCalm "d" (23*3600)).windows.length = 1 ∧
    (analyze_day_weather exCalm "d" (23*3600)).playable = true ∧
    dryWindows (cutoffOf (23*3600)) exCalm = [⟨10, 13, 10, 2237/500⟩] := by
  have hne : inScopeSorted (cutoffOf (23*3600)) exCalm ≠ [] :=
    of_decide_eq_true (by with_unfolding_all rfl)
  have hgood : ∀ s ∈ inScopeSorted (cutoffOf (23*3600)) exCalm,
      goodSample s = true :=
    of_decide_eq_true (by with_unfolding_all rfl)
  obtain ⟨h1, h2, -⟩ := C2_single_window exCalm "d" (23*3600) hne hgood
  refine ⟨hne, h1, h2, ?_⟩
  with_unfolding_all rfl

/-- The scan invariant behind the amended C3: if the remaining samples
keep 3-hour gaps between consecutive hours, the accumulated windows stay
chained (`endH ≤` next `start`), non-degenerate, and bounded by the next
sample's hour. -/
theorem scan_chain :
    ∀ (F : List Sample) (acc : List DryWindow) (cur : Option DryWindow),
      List.Chain' gap3 F →
      List.Chain' wlt (acc ++ cur.toList) →
      (∀ w ∈ acc ++ cur.toList, w.start < w.endH) →
      (∀ s, F.head? = some s →
        ∀ w, (acc ++ cur.toList).getLast? = some w → w.endH ≤ hourOf s) →
      List.Chain' wlt (flushScan (F.foldl goodStep (acc, cur))) ∧
      ∀ w ∈ flushScan (F.foldl goodStep (acc, cur)), w.start < w.endH
  | [], _, _, _, hc, hlt, _ => ⟨hc, hlt⟩
  | s :: F', acc, cur, hch, hc, hlt, hlast => by
    obtain ⟨hgap, hch'⟩ := List.chain'_cons'.mp hch
    have hgap' : ∀ s', F'.head? = some s' → hourOf s + 3 ≤ hourOf s' :=
      fun s' hs' => hgap s' hs'
    rw [List.foldl_cons]
    cases hg : goodSample s with
    | true =>
      cases cur with
      | none =>
        have hstep : goodStep (acc, none) s
            = (acc, some ⟨hourOf s, hourOf s + 3, s.mainTemp, windMph s⟩) := by
          simp [goodStep, hg]
        rw [hstep]
        apply scan_chain F' acc (some _) hch'
        · refine List.chain'_append.mpr ⟨by simpa using hc,
            List.chain'_singleton _, ?_⟩
          intro x hx y hy
          simp only [Option.toList_some, List.head?_cons, Option.mem_def,
            Option.some.injEq] at hy
          subst hy
          show x.endH ≤ hourOf s
          exact hlast s rfl x (by simpa using hx)
        · intro w hw
          rcases List.mem_append.mp hw with h | h
          · exact hlt w (by simpa using h)
          · simp only [Option.toList_some, List.mem_singleton] at h
            subst h
            show hourOf s < hourOf s + 3
            omega
        · intro s' hs' w hw
          simp only [Option.toList_some, List.getLast?_concat,
            Option.mem_def, Option.some.injEq] at hw
          subst hw
          show hourOf s + 3 ≤ hourOf s'
          exact hgap' s' hs'
      | some w =>
        have hstep : goodStep (acc, some w) s
            = (acc, some { w with endH := hourOf s + 3 }) := by
          simp [goodStep, hg]
        rw [hstep]
        have hwE : w.endH ≤ hourOf s :=
          hlast s rfl w (by simp [List.getLast?_concat])
        have hwS : w.start < w.endH :=
          hlt w (by simp)
        obtain ⟨hcacc, -, hlink⟩ :=
          List.chain'_append.mp (by simpa using hc)
        apply scan_chain F' acc (some _) hch'
        · refine List.chain'_append.mpr ⟨hcacc, List.chain'_singleton _, ?_⟩
          intro x hx y hy
          simp only [Option.toList_some, List.head?_cons, Option.mem_def,
            Option.some.injEq] at hy
          subst hy
          show x.endH ≤ w.start
          exact hlink x hx w (by simp)
        · intro w' hw'
          rcases List.mem_append.mp hw' with h | h
          · exact hlt w' (by simpa using Or.inl h)
          · simp only [Option.toList_some, List.mem_singleton] at h
            subst h
            show w.start < hourOf s + 3
            omega
        · intro s' hs' w' hw'
          simp only [Option.toList_some, List.getLast?_concat,
            Option.mem_def, Option.some.injEq] at hw'
          subst hw'
          show hourOf s + 3 ≤ hourOf s'
          exact hgap' s' hs'
    | false =>
      cases cur with
      | some w =>
        have hstep : goodStep (acc, some w) s = (acc ++ [w], none) := by
          simp [goodStep, hg]
        rw [hstep]
        have hwE : w.endH ≤ hourOf s :=
          hlast s rfl w (by simp [List.getLast?_concat])
        apply scan_chain F' (acc ++ [w]) none hch'
        · simpa using hc
        · intro w' hw'
          exact hlt w' (by simpa using hw')
        · intro s' hs' w' hw'
          simp only [List.append_nil, Option.toList_none,
            List.getLast?_concat, Option.mem_def, Option.some.injEq] at hw'
          subst hw'
          have := hgap' s' hs'
          omega
      | none =>
        have hstep : goodStep (acc, none) s = (acc, none) := by
          simp [goodStep, hg]
        rw [hstep]
        apply scan_chain F' acc none hch' hc hlt
        intro s' hs' w' hw'
        have h1 := hlast s rfl w' hw'
        have := hgap' s' hs'
        omega

/-- C3 counterexample: with hourly samples (dry 09:00, raining 10:00,
dry 11:00) the analysis produces the windows `09:00-12:00` and
`11:00-14:00`, which are not non-overlapping: the first ends after the
second starts. -/
theorem C3_counterexample :
    (analyze_day_weather exHourly "d" (23*3600)).windows.map (fun w => w.time)
      = ["09:00-12:00", "11:00-14:00"] ∧
    dryWindows (cutoffOf (23*3600)) exHourly
      = [⟨9, 12, 10, 0⟩, ⟨11, 14, 10, 0⟩] ∧
    ¬ List.Chain' wlt (dryWindows (cutoffOf (23*3600)) exHourly) := by
  have hdw : dryWindows (cutoffOf (23*3600)) exHourly
      = [⟨9, 12, 10, 0⟩, ⟨11, 14, 10, 0⟩] := by
    with_unfolding_all rfl
  refine ⟨by with_unfolding_all rfl, hdw, ?_⟩
  intro hchain
  rw [hdw] at hchain
  have h12 : wlt (⟨9, 12, 10, 0⟩ : DryWindow) ⟨11, 14, 10, 0⟩ :=
    (List.chain'_cons.mp hchain).1
  simp only [wlt] at h12
  omega

/-- C3 amended: the windows are chronologically increasing and
non-overlapping (each window's end is at most the next window's start,
and each start is before its end) PROVIDED consecutive in-scope samples
are at least 3 hours apart — the spacing of the 3-hourly forecast buckets
the analyzer is built for.  With denser (e.g. hourly) spacing consecutive
windows can overlap, as `C3_counterexample` shows; the analysis windows
are the dry windows rendered in scan order. -/
theorem C3_amended (l : List Sample) (d : String) (t : Int)
    (hgap : List.Chain' gap3 (inScopeSorted (cutoffOf t) l)) :
    List.Chain' wlt (dryWindows (cutoffOf t) l) ∧
    (∀ w ∈ dryWindows (cutoffOf t) l, w.start < w.endH) ∧
    (analyze_day_weather l d t).windows
      = (dryWindows (cutoffOf t) l).map (fun w =>
          { time := windowTime (hasMorningRain l) (hasAfternoonRain l) w,
            temp := w.temp, wind := w.wind }) := by
  have hdw : dryWindows (cutoffOf t) l
      = flushScan ((inScopeSorted (cutoffOf t) l).foldl goodStep ([], none)) := by
    unfold dryWindows
    rw [scanFold_eq]
    rfl
  have h := scan_chain (inScopeSorted (cutoffOf t) l) [] none hgap
    (by simp) (by simp) (by simp)
  refine ⟨?_, ?_, rfl⟩
  · rw [hdw]
    exact h.1
  · rw [hdw]
    exact h.2

/-- Witness for C3's amended claim: the section-8 scenario has 3-hourly
samples (09:00, 12:00, 15:00), and its two windows are chained. -/
theorem C3_witness :
    List.Chain' gap3 (inScopeSorted (cutoffOf (20*3600)) exScenario) ∧
    List.Chain' wlt (dryWindows (cutoffOf (20*3600)) exScenario) := by
  have hin : inScopeSorted (cutoffOf (20*3600)) exScenario = exScenario := by
    with_unfolding_all rfl
  have hg : List.Chain' gap3 (inScopeSorted (cutoffOf (20*3600)) exScenario) := by
    rw [hin]
    refine List.chain'_cons.mpr ⟨?_, List.chain'_cons.mpr
      ⟨?_, List.chain'_singleton _⟩⟩ <;>
      exact of_decide_eq_true (by with_unfolding_all rfl)
  exact ⟨hg, (C3_amended exScenario "d" (20*3600) hg).1⟩

/-- The ghost scan projects onto the plain scan. -/
theorem foldG_fst :
    ∀ (F : List Sample) (A : List GWindow) (O : Option GWindow),
      F.foldl goodStep (A.map Prod.fst, Option.map Prod.fst O)
        = ((F.foldl goodStepG (A, O)).1.map Prod.fst,
           Option.map Prod.fst (F.foldl goodStepG (A, O)).2)
  | [], _, _ => rfl
  | s :: F, A, O => by
    rw [List.foldl_cons, List.foldl_cons]
    cases hg : goodSample s with
    | true =>
      cases O with
      | none =>
        simp only [Option.map_none']
        have h1 : goodStep (A.map Prod.fst, none) s
            = (A.map Prod.fst,
               some ⟨hourOf s, hourOf s + 3, s.mainTemp, windMph s⟩) := by
          simp [goodStep, hg]
        have h2 : goodStepG (A, none) s
            = (A, some ((⟨hourOf s, hourOf s + 3, s.mainTemp, windMph s⟩,
                [s]) : GWindow)) := by
          simp [goodStepG, hg]
        rw [h1, h2]
        simpa using foldG_fst F A
          (some ((⟨hourOf s, hourOf s + 3, s.mainTemp, windMph s⟩,
            [s]) : GWindow))
      | some g =>
        obtain ⟨w, ss⟩ := g
        simp only [Option.map_some']
        have h1 : goodStep (A.map Prod.fst, some w) s
            = (A.map Prod.fst, some { w with endH := hourOf s + 3 }) := by
          simp [goodStep, hg]
        have h2 : goodStepG (A, some (w, ss)) s
            = (A, some (({ w with endH := hourOf s + 3 },
                ss ++ [s]) : GWindow)) := by
          simp [goodStepG, hg]
        rw [h1, h2]
        simpa using foldG_fst F A
          (some (({ w with endH := hourOf s + 3 }, ss ++ [s]) : GWindow))
    | false =>
      cases O with
      | none =>
        simp only [Option.map_none']
        have h1 : goodStep (A.map Prod.fst, none) s = (A.map Prod.fst, none) := by
          simp [goodStep, hg]
        have h2 : goodStepG (A, none) s = (A, none) := by
          simp [goodStepG, hg]
        rw [h1, h2]
        simpa using foldG_fst F A none
      | some g =>
        obtain ⟨w, ss⟩ := g
        simp only [Option.map_some']
        have h1 : goodStep (A.map Prod.fst, some w) s
            = (A.map Prod.fst ++ [w], none) := by
          simp [goodStep, hg]
        have h2 : goodStepG (A, some (w, ss)) s = (A ++ [(w, ss)], none) := by
          simp [goodStepG, hg]
        rw [h1, h2]
        have h3 : A.map Prod.fst ++ [w] = (A ++ [(w, ss)]).map Prod.fst := by
          simp
        rw [h3]
        simpa using foldG_fst F (A ++ [(w, ss)]) none

/-- Flushing commutes with forgetting the ghost samples. -/
theorem flushScan_map (A : List GWindow) (O : Option GWindow) :
    flushScan (A.map Prod.fst, Option.map Prod.fst O)
      = (flushScanG (A, O)).map Prod.fst := by
  cases O <;> simp [flushScan, flushScanG]

/-- The dry windows are the ghost windows with the sample lists
forgotten. -/
theorem dryWindows_eq_ghost (c : Int) (l : List Sample) :
    dryWindows c l = (dryWindowsG c l).map Prod.fst := by
  unfold dryWindows dryWindowsG
  rw [scanFold_eq]
  have h0 : (([] : List DryWindow), (none : Option DryWindow))
      = (([] : List GWindow).map Prod.fst,
         Option.map Prod.fst (none : Option GWindow)) := rfl
  rw [h0, foldG_fst, flushScan_map]

/-- Every ghost window accumulated by the scan satisfies `gwOk`: its
start/temp/wind come from the first merged sample and its end tracks the
last merged sample. -/
theorem ghost_ok :
    ∀ (F : List Sample) (A : List GWindow) (O : Option GWindow),
      (∀ g ∈ A, gwOk g) → (∀ g ∈ O.toList, gwOk g) →
      ∀ g ∈ flushScanG (F.foldl goodStepG (A, O)), gwOk g
  | [], _, _, hA, hO => by
    intro g hg
    rcases List.mem_append.mp hg with h | h
    exacts [hA g h, hO g h]
  | s :: F, A, O, hA, hO => by
    rw [List.foldl_cons]
    cases hg : goodSample s with
    | true =>
      cases O with
      | none =>
        have hstep : goodStepG (A, none) s
            = (A, some (⟨hourOf s, hourOf s + 3, s.mainTemp, windMph s⟩,
                [s])) := by
          simp [goodStepG, hg]
        rw [hstep]
        apply ghost_ok F A _ hA
        intro g hgm
        simp only [Option.toList_some, List.mem_singleton] at hgm
        subst hgm
        exact ⟨s, [], s, rfl, rfl, rfl, rfl, rfl, rfl⟩
      | some g0 =>
        obtain ⟨w, ss⟩ := g0
        obtain ⟨s₀, rest, slast, hss, h1, h2, h3, h4, h5⟩ :=
          hO (w, ss) (by simp)
        have hstep : goodStepG (A, some (w, ss)) s
            = (A, some ({ w with endH := hourOf s + 3 }, ss ++ [s])) := by
          simp [goodStepG, hg]
        rw [hstep]
        apply ghost_ok F A _ hA
        intro g hgm
        simp only [Option.toList_some, List.mem_singleton] at hgm
        subst hgm
        have hss' : ss = s₀ :: rest := hss
        exact ⟨s₀, rest ++ [s], s,
          by show ss ++ [s] = _; rw [hss', List.cons_append], h1, h2, h3,
          List.getLast?_concat ss, rfl⟩
    | false =>
      cases O with
      | some g0 =>
        have hstep : goodStepG (A, some g0) s = (A ++ [g0], none) := by
          simp [goodStepG, hg]
        rw [hstep]
        apply ghost_ok F (A ++ [g0]) none
        · intro g hgm
          rcases List.mem_append.mp hgm with h | h
          · exact hA g h
          · simp only [List.mem_singleton] at h
            subst h
            exact hO g (by simp)
        · simp
      | none =>
        have hstep : goodStepG (A, none) s = (A, none) := by
          simp [goodStepG, hg]
        rw [hstep]
        exact ghost_ok F A none hA hO

/-- C10: every window of the analysis comes from a ghost window whose
representative temperature and wind (and start hour) are exactly those of
the chronologically first sample merged into it, whose end hour is the
last merged sample's hour plus 3; and a sample merged into an open window
only extends the window's end hour — it never changes the start,
temperature or wind. -/
theorem C10_window_fields (l : List Sample) (d : String) (t : Int) :
    (analyze_day_weather l d t).windows
      = (dryWindowsG (cutoffOf t) l).map (fun g =>
          { time := windowTime (hasMorningRain l) (hasAfternoonRain l) g.1,
            temp := g.1.temp, wind := g.1.wind }) ∧
    (∀ g ∈ dryWindowsG (cutoffOf t) l, gwOk g) ∧
    (∀ (st : List GWindow) (w : DryWindow) (ss : List Sample) (s : Sample),
      goodSample s = true →
      goodStepG (st, some (w, ss)) s
        = (st, some ({ w with endH := hourOf s + 3 }, ss ++ [s]))) := by
  refine ⟨?_, ghost_ok _ [] none (by simp) (by simp), ?_⟩
  · show (dryWindows (cutoffOf t) l).map _ = _
    rw [dryWindows_eq_ghost, List.map_map]
    rfl
  · intro st w ss s hgs
    simp [goodStepG, hgs]

/-- Witness for C10: in the section-8 scenario the merge step at the
(calm, dry) 12:00 sample only moves the open 09:00 window's end hour to
15, leaving start, temperature and wind untouched. -/
theorem C10_witness :
    (analyze_day_weather exScenario "d" (20*3600)).windows
      = (dryWindowsG (cutoffOf (20*3600)) exScenario).map (fun g =>
          { time := windowTime (hasMorningRain exScenario)
              (hasAfternoonRain exScenario) g.1,
            temp := g.1.temp, wind := g.1.wind }) ∧
    goodStepG ([], some (⟨9, 12, 10, 10⟩, [mkSample (9*3600) 0 0 "Clear"]))
        (mkSample (12*3600) 0 0 "Clear")
      = ([], some (⟨9, 15, 10, 10⟩, [mkSample (9*3600) 0 0 "Clear",
          mkSample (12*3600) 0 0 "Clear"])) := by
  have hgs : goodSample (mkSample (12*3600) 0 0 "Clear") = true :=
    of_decide_eq_true (by with_unfolding_all rfl)
  refine ⟨(C10_window_fields exScenario "d" (20*3600)).1, ?_⟩
  rw [(C10_window_fields exScenario "d" (20*3600)).2.2 []
    ⟨9, 12, 10, 10⟩ [mkSample (9*3600) 0 0 "Clear"]
    (mkSample (12*3600) 0 0 "Clear") hgs]
  with_unfolding_all rfl

end TennisBot
